import Mathlib

/-!
Shallow embedding of the ElegooNeptuneThumbnails settings core
(`tools/settings.py` and `tools/gui.py`) and verification of its
specification claims.

Modelling conventions:
* Python `int` is `Int`; Python lists are `List`; Python list indexing
  (which supports negative indices and raises `IndexError` out of range)
  is `pyGet` / `pySet` returning `Option`.
* A raised, uncaught Python exception is `none` / `Except.error`.
* The persisted JSON blob is `SettingsJson`: each of the five keys is an
  `Option` field (`none` = key missing from the stored object, so that
  Python `data["key"]` raises `KeyError`).
* The Cura host (`Application.getInstance()`...) is the `Store` record:
  the metadata blob, the `general/statistics_id` preference and the id of
  the active machine definition.  A fresh `uuid.uuid4()` value is passed
  in as an explicit `fresh` argument.
-/

/-- Content option catalog (`Settings.OPTIONS`): ordered identifier/label
pairs; the commented-out cost-estimate entry is absent, as in the source. -/
def OPTIONS : List (String × String) :=
  [("nothing", "Nothing"),
   ("includeTimeEstimate", "Time Estimate"),
   ("includeFilamentGramsEstimate", "Filament Grams Estimate"),
   ("includeLayerHeight", "Layer Height"),
   ("includeModelHeight", "Model Height"),
   ("includeFilamentMetersEstimate", "Filament Meters Estimate")]

/-- Device model catalog (`Settings.PRINTER_MODELS`). -/
def PRINTER_MODELS : List (String × String) :=
  [("elegoo_neptune_2", "Elegoo Neptune 2"),
   ("elegoo_neptune_2_s", "Elegoo Neptune 2S"),
   ("elegoo_neptune_3_pro", "Elegoo Neptune 3 Pro"),
   ("elegoo_neptune_3_plus", "Elegoo Neptune 3 Plus"),
   ("elegoo_neptune_3_max", "Elegoo Neptune 3 Max")]

/-- Ordered list of content option identifiers (`list(Settings.OPTIONS.keys())`). -/
def optionIds : List String := OPTIONS.map Prod.fst

/-- Resolve a Python list index of a list of length `len`: negative indices
count from the end, and an index out of range is `none` (`IndexError`). -/
def pyIndex (len : Nat) (i : Int) : Option Nat :=
  let j : Int := if i < 0 then (len : Int) + i else i
  if 0 ≤ j ∧ j < (len : Int) then some j.toNat else none

/-- Python list read `xs[i]` (negative indexing, `IndexError` = `none`). -/
def pyGet {α : Type} (xs : List α) (i : Int) : Option α :=
  (pyIndex xs.length i).bind fun j => xs.get? j

/-- Python list write `xs[i] = v` (negative indexing, `IndexError` = `none`). -/
def pySet {α : Type} (xs : List α) (i : Int) (v : α) : Option (List α) :=
  (pyIndex xs.length i).map fun j => xs.set j v

/-- The mutable configuration entity (`Settings.__init__`). `plugin_json`
is kept opaque as a string. -/
structure Settings where
  statistics_id : String
  plugin_json : String
  thumbnails_enabled : Bool
  printer_model : Int
  corner_options : List Int
  statistics_enabled : Bool
  use_current_model : Bool
deriving Repr, DecidableEq

/-- Constructor defaults of `Settings.__init__`. -/
def Settings.init (statistics_id plugin_json : String) : Settings :=
  { statistics_id := statistics_id
    plugin_json := plugin_json
    thumbnails_enabled := true
    printer_model := 2
    corner_options := [0, 0, 3, 1]
    statistics_enabled := true
    use_current_model := false }

/-- The list comprehension `[option_ids[i] for i in corner_options if i > 0]`:
for each kept index the subscript may raise (`none`). -/
def pyOptionComp (option_ids : List String) : List Int → Option (List String)
  | [] => some []
  | i :: is =>
    if i > 0 then
      match pyGet option_ids i, pyOptionComp option_ids is with
      | some v, some vs => some (v :: vs)
      | _, _ => none
    else pyOptionComp option_ids is

/-- Order-preserving first-occurrence deduplication
(`list(dict.fromkeys(xs))`). -/
def dedupFirstAux (seen : List String) : List String → List String
  | [] => []
  | x :: xs =>
    if x ∈ seen then dedupFirstAux seen xs
    else x :: dedupFirstAux (x :: seen) xs

/-- Deduplicate keeping the first occurrence of each element. -/
def dedupFirst (xs : List String) : List String := dedupFirstAux [] xs

/-- Embedding of `Settings.get_corner_option_ids`. -/
def Settings.get_corner_option_ids (s : Settings) : Option (List String) :=
  match pyOptionComp optionIds s.corner_options with
  | none => none
  | some selected =>
    let selected := dedupFirst selected
    some (if s.thumbnails_enabled then "includeThumbnail" :: selected else selected)

/-- A concrete entity in the constructor-default state
(`corner_options = [0,0,3,1]`, `thumbnails_enabled = true`). -/
def exampleSettings : Settings := Settings.init "some-id" "plugin-json"

/-- C3 counterexample: on `corner_options=[0,0,3,1]` with the overlay enabled,
the effective option set does NOT contain the model-height identifier: catalog
index 3 is the layer-height identifier, not model-height as the claim asserts. -/
theorem C3_counterexample :
    Settings.get_corner_option_ids exampleSettings ≠
      some ["includeThumbnail", "includeModelHeight", "includeTimeEstimate"] := by
  decide

/-- C3 (amended): for `corner_options=[0,0,3,1]` and `overlay_enabled=true`
the effective option set is exactly `[overlay, layer-height, time-estimate]`
— three elements, zero slots dropped, no duplicates; content catalog index 3
is the layer-height identifier (model-height is index 4), index 1 is the
time-estimate identifier. -/
theorem C3_effective_option_set_example :
    Settings.get_corner_option_ids exampleSettings =
      some ["includeThumbnail", "includeLayerHeight", "includeTimeEstimate"] := by
  decide

/-!
Embedding of the `SettingsTranslator` mutation operations (`tools/gui.py`).
Each slot reads the live entity through `SettingsManager.get_settings()`;
here the entity is passed explicitly.  The returned `Bool` is whether the
re-render signal (`render_thumbnail`) fired; a raised `IndexError` is `none`.
-/

/-- Transient view-side state of `SettingsTranslator.__init__`. -/
structure SettingsTranslator where
  selected_corner : Int
deriving Repr, DecidableEq

/-- Initial translator state (`self._selected_corner = -1`). -/
def SettingsTranslator.start : SettingsTranslator := { selected_corner := -1 }

/-- Embedding of `SettingsTranslator.select_corner`. -/
def select_corner (tr : SettingsTranslator) (corner : Int) : SettingsTranslator :=
  { tr with selected_corner := corner }

/-- Embedding of `SettingsTranslator.selected_corner_option`: reads
`corner_options[self._selected_corner]` with Python indexing. -/
def selected_corner_option (tr : SettingsTranslator) (s : Settings) : Option Int :=
  pyGet s.corner_options tr.selected_corner

/-- Embedding of `SettingsTranslator.set_thumbnails_enabled`. -/
def set_thumbnails_enabled (s : Settings) (enabled : Bool) : Settings × Bool :=
  ({ s with thumbnails_enabled := enabled }, s.thumbnails_enabled != enabled)

/-- Embedding of `SettingsTranslator.select_printer_model`. -/
def select_printer_model (s : Settings) (model : Int) : Settings × Bool :=
  ({ s with printer_model := model }, s.printer_model != model)

/-- Embedding of `SettingsTranslator.set_use_current_model`. -/
def set_use_current_model (s : Settings) (enabled : Bool) : Settings × Bool :=
  ({ s with use_current_model := enabled }, s.use_current_model != enabled)

/-- Embedding of `SettingsTranslator.set_statistics_enabled` (never re-renders). -/
def set_statistics_enabled (s : Settings) (enabled : Bool) : Settings :=
  { s with statistics_enabled := enabled }

/-- Embedding of `SettingsTranslator.set_corner_option`: first the comparison
read `corner_options[corner] != option`, then the write, both with Python
indexing; no bounds check of any kind on `option`. -/
def set_corner_option (s : Settings) (corner opt : Int) : Option (Settings × Bool) :=
  match pyGet s.corner_options corner with
  | none => none
  | some old =>
    match pySet s.corner_options corner opt with
    | none => none
    | some l => some ({ s with corner_options := l }, old != opt)

/-- A resolved Python index is within bounds. -/
theorem pyIndex_lt {len : Nat} {i : Int} {j : Nat} (h : pyIndex len i = some j) :
    j < len := by
  by_cases hi : i < 0 <;>
    simp only [pyIndex, hi, if_true, if_false] at h <;>
    split at h <;>
    simp only [Option.some.injEq, reduceCtorEq] at h <;>
    omega

/-- Reading through a resolved Python index. -/
theorem pyGet_eq_of_pyIndex {α : Type} {xs : List α} {i : Int} {j : Nat}
    (h : pyIndex xs.length i = some j) : pyGet xs i = xs[j]? := by
  simp [pyGet, h, List.get?_eq_getElem?]

/-- Writing through a resolved Python index. -/
theorem pySet_eq_of_pyIndex {α : Type} {xs : List α} {i : Int} {v : α} {j : Nat}
    (h : pyIndex xs.length i = some j) : pySet xs i v = some (xs.set j v) := by
  simp [pySet, h]

/-- An unresolvable Python index makes the read raise. -/
theorem pyGet_none {α : Type} {xs : List α} {i : Int}
    (h : pyIndex xs.length i = none) : pyGet xs i = none := by
  simp [pyGet, h]

/-- C2 counterexample: from the default state, mutating corner 0 with option
index 6 (= the catalog size) is NOT rejected: the call succeeds, writes 6 into
`corner_options` and even fires the re-render signal. -/
theorem C2_counterexample :
    set_corner_option exampleSettings 0 6 =
      some ({ exampleSettings with corner_options := [6, 0, 3, 1] }, true) := by
  decide

/-- C2 (amended): a corner index that Python cannot resolve on a 4-slot list
(outside [-4,4)) makes the mutation fail with an `IndexError` before any
write, leaving `corner_options` unchanged; but a resolvable corner index is
written with the given option value unconditionally — the option index is
never validated, so any out-of-catalog option (e.g. the catalog size) is
silently stored. -/
theorem C2_corner_mutation_bounds (s : Settings) (corner opt : Int)
    (h4 : s.corner_options.length = 4) :
    (pyIndex 4 corner = none → set_corner_option s corner opt = none) ∧
    (∀ j : Nat, pyIndex 4 corner = some j →
      ∃ fired : Bool, set_corner_option s corner opt =
        some ({ s with corner_options := s.corner_options.set j opt }, fired)) := by
  constructor
  · intro hnone
    have hg : pyGet s.corner_options corner = none := pyGet_none (by rw [h4]; exact hnone)
    simp [set_corner_option, hg]
  · intro j hj
    have hj' : pyIndex s.corner_options.length corner = some j := by rw [h4]; exact hj
    have hlt : j < s.corner_options.length := by rw [h4]; exact pyIndex_lt hj
    have hg : pyGet s.corner_options corner = s.corner_options[j]? :=
      pyGet_eq_of_pyIndex hj'
    obtain ⟨old, hold⟩ : ∃ old, s.corner_options[j]? = some old :=
      ⟨s.corner_options[j], List.getElem?_eq_getElem hlt⟩
    refine ⟨old != opt, ?_⟩
    simp [set_corner_option, hg, hold, pySet_eq_of_pyIndex hj']

/-- C2 witness: instantiation of the amended bounds theorem at corner 5
(rejected) and corner 1, option 4 (written unconditionally). -/
theorem C2_witness :
    ([(0 : Int), 0, 3, 1].length = 4) ∧
      (pyIndex 4 5 = none → set_corner_option exampleSettings 5 4 = none) ∧
      (∀ j : Nat, pyIndex 4 1 = some j →
        ∃ fired : Bool, set_corner_option exampleSettings 1 4 =
          some ({ exampleSettings with
                    corner_options := exampleSettings.corner_options.set j 4 }, fired)) :=
  ⟨by decide,
   (C2_corner_mutation_bounds exampleSettings 5 4 (by decide)).1,
   (C2_corner_mutation_bounds exampleSettings 1 4 (by decide)).2⟩

/-- C6: every scalar field mutation writes the new value unconditionally and
fires the re-render signal exactly when the new value differs from the old
one: overlay flag, device model index, preview-model flag, and a corner slot
reached through a resolvable corner index. -/
theorem C6_mutation_fires_iff_changed (s : Settings) (b1 b2 : Bool)
    (m corner opt : Int) (j : Nat)
    (h4 : s.corner_options.length = 4) (hj : pyIndex 4 corner = some j) :
    ((set_thumbnails_enabled s b1).1.thumbnails_enabled = b1 ∧
      ((set_thumbnails_enabled s b1).2 = true ↔ s.thumbnails_enabled ≠ b1)) ∧
    ((select_printer_model s m).1.printer_model = m ∧
      ((select_printer_model s m).2 = true ↔ s.printer_model ≠ m)) ∧
    ((set_use_current_model s b2).1.use_current_model = b2 ∧
      ((set_use_current_model s b2).2 = true ↔ s.use_current_model ≠ b2)) ∧
    (∃ s2 fired, set_corner_option s corner opt = some (s2, fired) ∧
      s2.corner_options[j]? = some opt ∧
      (fired = true ↔ s.corner_options[j]? ≠ some opt)) := by
  refine ⟨⟨rfl, bne_iff_ne⟩, ⟨rfl, bne_iff_ne⟩, ⟨rfl, bne_iff_ne⟩, ?_⟩
  have hj' : pyIndex s.corner_options.length corner = some j := by rw [h4]; exact hj
  have hlt : j < s.corner_options.length := by rw [h4]; exact pyIndex_lt hj
  have hg : pyGet s.corner_options corner = s.corner_options[j]? :=
    pyGet_eq_of_pyIndex hj'
  have hold : s.corner_options[j]? = some s.corner_options[j] :=
    List.getElem?_eq_getElem hlt
  refine ⟨{ s with corner_options := s.corner_options.set j opt },
    s.corner_options[j] != opt, ?_, ?_, ?_⟩
  · simp [set_corner_option, hg, hold, pySet_eq_of_pyIndex hj']
  · exact List.getElem?_set_eq_of_lt opt hlt
  · rw [hold]
    simp [bne_iff_ne]

/-- C6 witness: the mutation/render contract instantiated at the
constructor-default entity, corner 2, option 3. -/
theorem C6_witness :
    ((set_thumbnails_enabled exampleSettings false).1.thumbnails_enabled = false ∧
      ((set_thumbnails_enabled exampleSettings false).2 = true ↔
        exampleSettings.thumbnails_enabled ≠ false)) ∧
    ((select_printer_model exampleSettings 0).1.printer_model = 0 ∧
      ((select_printer_model exampleSettings 0).2 = true ↔
        exampleSettings.printer_model ≠ 0)) ∧
    ((set_use_current_model exampleSettings true).1.use_current_model = true ∧
      ((set_use_current_model exampleSettings true).2 = true ↔
        exampleSettings.use_current_model ≠ true)) ∧
    (∃ s2 fired, set_corner_option exampleSettings 2 3 = some (s2, fired) ∧
      s2.corner_options[2]? = some 3 ∧
      (fired = true ↔ exampleSettings.corner_options[2]? ≠ some 3)) :=
  C6_mutation_fires_iff_changed exampleSettings false true 0 2 3 2
    (by decide) (by decide)

/-- C10: before any `select_corner` call the transient cursor holds -1, and
reading the current corner option through it does not fail: Python negative
indexing returns the last slot, `corner_options[3]`. -/
theorem C10_initial_cursor_reads_last (s : Settings)
    (h4 : s.corner_options.length = 4) :
    SettingsTranslator.start.selected_corner = -1 ∧
    selected_corner_option SettingsTranslator.start s = s.corner_options[3]? ∧
    (selected_corner_option SettingsTranslator.start s).isSome = true := by
  have hidx : pyIndex s.corner_options.length (-1) = some 3 := by rw [h4]; decide
  have hread : selected_corner_option SettingsTranslator.start s = s.corner_options[3]? := by
    simpa [selected_corner_option, SettingsTranslator.start] using pyGet_eq_of_pyIndex hidx
  refine ⟨rfl, hread, ?_⟩
  rw [hread, List.getElem?_eq_getElem (show 3 < s.corner_options.length by omega)]
  rfl

/-- C10 witness: the initial-cursor read at the constructor-default entity. -/
theorem C10_witness :
    SettingsTranslator.start.selected_corner = -1 ∧
    selected_corner_option SettingsTranslator.start exampleSettings =
      exampleSettings.corner_options[3]? ∧
    (selected_corner_option SettingsTranslator.start exampleSettings).isSome = true :=
  C10_initial_cursor_reads_last exampleSettings (by decide)

/-!
Embedding of the persistence layer (`SettingsManager` in `tools/settings.py`).
-/

/-- The stored JSON object: each key of the persisted blob schema may be
missing (`none`), in which case `data["key"]` raises `KeyError`. -/
structure SettingsJson where
  thumbnails_enabled : Option Bool
  printer_model : Option Int
  corner_options : Option (List Int)
  statistics_enabled : Option Bool
  use_current_model : Option Bool
deriving Repr, DecidableEq

/-- The host-side durable state: the metadata blob under
`elegoo_neptune_thumbnails`, the `general/statistics_id` preference, and the
active machine definition id. -/
structure Store where
  blob : Option SettingsJson
  statistics_id_pref : Option String
  active_printer_id : String
deriving Repr, DecidableEq

/-- The process-wide manager state: `SettingsManager._settings` plus the host
store it talks to. -/
structure ManagerState where
  settings : Option Settings
  store : Store
deriving Repr, DecidableEq

/-- Embedding of `Settings.load_json`: five unguarded key accesses in source
order; a missing key raises `KeyError` and aborts the remaining assignments. -/
def Settings.load_json (s : Settings) (data : SettingsJson) : Except String Settings :=
  match data.thumbnails_enabled with
  | none => Except.error "KeyError: thumbnails_enabled"
  | some te =>
    match data.printer_model with
    | none => Except.error "KeyError: printer_model"
    | some pm =>
      match data.corner_options with
      | none => Except.error "KeyError: corner_options"
      | some co =>
        match data.statistics_enabled with
        | none => Except.error "KeyError: statistics_enabled"
        | some se =>
          match data.use_current_model with
          | none => Except.error "KeyError: use_current_model"
          | some um =>
            Except.ok { s with
              thumbnails_enabled := te
              printer_model := pm
              corner_options := co
              statistics_enabled := se
              use_current_model := um }

/-- Embedding of `Settings.to_json`: the five persisted fields, all present. -/
def Settings.to_json (s : Settings) : SettingsJson :=
  { thumbnails_enabled := some s.thumbnails_enabled
    printer_model := some s.printer_model
    corner_options := some s.corner_options
    statistics_enabled := some s.statistics_enabled
    use_current_model := some s.use_current_model }

/-- Embedding of `SettingsManager._generate_statistics_id`: if the preference
is unset (or empty, which is falsy in Python), persist the fresh uuid; then
read the preference back. -/
def generate_statistics_id (store : Store) (fresh : String) : String × Store :=
  match store.statistics_id_pref with
  | none => (fresh, { store with statistics_id_pref := some fresh })
  | some v =>
    if v = "" then (fresh, { store with statistics_id_pref := some fresh })
    else (v, store)

/-- Embedding of the sequential printer-id checks in `SettingsManager.load`
(applied to the just-defaulted `printer_model`). -/
def detectPrinterModel (printer_id : String) (current : Int) : Int :=
  let m := current
  let m := if printer_id = "elegoo_neptune_2" then 0 else m
  let m := if printer_id = "elegoo_neptune_2s" ∨ printer_id = "elegoo_neptune_2_s" then 1 else m
  let m := if printer_id = "elegoo_neptune_3pro" ∨ printer_id = "elegoo_neptune_3_pro" then 2 else m
  let m := if printer_id = "elegoo_neptune_3plus" ∨ printer_id = "elegoo_neptune_3_plus" then 3 else m
  let m := if printer_id = "elegoo_neptune_3max" ∨ printer_id = "elegoo_neptune_3_max" then 4 else m
  m

/-- Embedding of `SettingsManager.load`: lazily construct the entity (fixing
its `statistics_id` once), then either deserialize the stored blob or apply
defaults plus the printer-model heuristic. `fresh` is the uuid that
`uuid.uuid4()` would produce on this call; `plugin_json` the plugin metadata. -/
def SettingsManager.load (st : ManagerState) (fresh plugin_json : String) :
    Except String ManagerState :=
  let p : Settings × ManagerState :=
    match st.settings with
    | some s => (s, st)
    | none =>
      let r := generate_statistics_id st.store fresh
      let s := Settings.init r.1 plugin_json
      (s, { settings := some s, store := r.2 })
  match p.2.store.blob with
  | some data =>
    match p.1.load_json data with
    | Except.ok s => Except.ok { p.2 with settings := some s }
    | Except.error e => Except.error e
  | none =>
    let s := { p.1 with
      thumbnails_enabled := true
      printer_model := 2
      corner_options := [0, 0, 3, 1]
      statistics_enabled := true
      use_current_model := false }
    let s := { s with
      printer_model := detectPrinterModel p.2.store.active_printer_id s.printer_model }
    Except.ok { p.2 with settings := some s }

/-- Embedding of `SettingsManager.save`: load first if no entity exists, then
serialize the five persisted fields into the metadata blob. -/
def SettingsManager.save (st : ManagerState) (fresh plugin_json : String) :
    Except String ManagerState :=
  let r : Except String ManagerState :=
    match st.settings with
    | some _ => Except.ok st
    | none => SettingsManager.load st fresh plugin_json
  match r with
  | Except.error e => Except.error e
  | Except.ok st =>
    match st.settings with
    | some s => Except.ok { st with store := { st.store with blob := some s.to_json } }
    | none => Except.error "settings uninitialized after load"

/-- Embedding of `SettingsTranslator.visibility_changed` (`tools/gui.py`):
closing the popup discards in-memory edits by reloading. -/
def visibility_changed (st : ManagerState) (visible : Bool) (fresh plugin_json : String) :
    Except String ManagerState :=
  if visible then Except.ok st else SettingsManager.load st fresh plugin_json

/-- A stored blob that is a valid JSON object with none of the five required
keys (e.g. the string `"\x7b\x7d"`). -/
def emptyJson : SettingsJson :=
  { thumbnails_enabled := none
    printer_model := none
    corner_options := none
    statistics_enabled := none
    use_current_model := none }

/-- C1 (code evaluated at the failing input): with a stored blob missing its
keys, `load()` does not fall back to defaults — the unguarded
`data["thumbnails_enabled"]` access raises `KeyError`, which propagates out of
`load()` as a fatal error. -/
theorem C1_load_raises_on_malformed_blob :
    SettingsManager.load
      { settings := none,
        store := { blob := some emptyJson,
                   statistics_id_pref := none,
                   active_printer_id := "elegoo_neptune_3_pro" } }
      "fresh-uuid" "plugin-json"
      = Except.error "KeyError: thumbnails_enabled" := by
  rfl

/-- A nonnegative in-range Python index resolves to itself. -/
theorem pyIndex_nonneg {len : Nat} {i : Int} (h0 : 0 ≤ i) (h1 : i < (len : Int)) :
    pyIndex len i = some i.toNat := by
  have hneg : ¬ i < 0 := by omega
  simp only [pyIndex, if_neg hneg]
  exact if_pos ⟨h0, h1⟩

/-- Modelled from the spec's words (section 3, Effective Option Set): take
`corner_options`, drop slots equal to 0, map the remaining indices to their
catalog identifiers, remove duplicates preserving first-occurrence order,
prepend the synthetic overlay identifier iff the overlay is enabled. -/
def effective_option_set_spec (s : Settings) : List String :=
  let kept := s.corner_options.filter (fun i => i ≠ 0)
  let mapped := kept.filterMap (fun i => optionIds[i.toNat]?)
  let deduped := dedupFirst mapped
  if s.thumbnails_enabled then "includeThumbnail" :: deduped else deduped

/-- On in-range corner options the raising comprehension of the source equals
the total drop-zero/map pipeline of the spec. -/
theorem pyOptionComp_eq (l : List Int) (h : ∀ i ∈ l, 0 ≤ i ∧ i < 6) :
    pyOptionComp optionIds l =
      some ((l.filter (fun i => i ≠ 0)).filterMap (fun i => optionIds[i.toNat]?)) := by
  induction l with
  | nil => rfl
  | cons i is ih =>
    have hi : 0 ≤ i ∧ i < 6 := h i (by simp)
    have his : ∀ x ∈ is, 0 ≤ x ∧ x < 6 := fun x hx => h x (by simp [hx])
    by_cases hpos : i > 0
    · have hne : ¬ i = 0 := by omega
      have hlen : optionIds.length = 6 := by decide
      have hidx : pyIndex optionIds.length i = some i.toNat := by
        rw [hlen]; exact pyIndex_nonneg hi.1 hi.2
      have htn : i.toNat < optionIds.length := by omega
      have hv : optionIds[i.toNat]? = some optionIds[i.toNat] :=
        List.getElem?_eq_getElem htn
      have hget : pyGet optionIds i = some optionIds[i.toNat] := by
        rw [pyGet_eq_of_pyIndex hidx]; exact hv
      simp only [pyOptionComp, if_pos hpos, hget, ih his, List.filter_cons,
        List.filterMap_cons, hne, decide_not]
      simp [hv]
    · have hz : i = 0 := by omega
      simp only [pyOptionComp, if_neg hpos, ih his, List.filter_cons]
      simp [hz]

/-- C4: for every entity state satisfying the catalog-bounds invariant, the
effective option set computed by the code equals the spec's pipeline: drop
zero slots, map to catalog identifiers, deduplicate preserving first
occurrence, prepend the overlay identifier iff the overlay is enabled. -/
theorem C4_effective_option_set (s : Settings)
    (h : ∀ i ∈ s.corner_options, 0 ≤ i ∧ i < 6) :
    s.get_corner_option_ids = some (effective_option_set_spec s) := by
  have hcomp := pyOptionComp_eq s.corner_options h
  simp [Settings.get_corner_option_ids, effective_option_set_spec, hcomp]

/-- C4 witness: the refinement instantiated at the constructor-default state. -/
theorem C4_witness :
    Settings.get_corner_option_ids exampleSettings =
      some (effective_option_set_spec exampleSettings) :=
  C4_effective_option_set exampleSettings (by decide)

/-- The one-shot generator `_generate_statistics_id` always returns the value
it leaves persisted in the preference, and touches nothing else of the store. -/
theorem generate_statistics_id_spec (store : Store) (f : String) :
    ∃ sid, generate_statistics_id store f =
      (sid, { store with statistics_id_pref := some sid }) := by
  obtain ⟨b, pref, pid⟩ := store
  cases pref with
  | none => exact ⟨f, rfl⟩
  | some v =>
    by_cases hv : v = ""
    · subst hv; exact ⟨f, rfl⟩
    · exact ⟨v, by simp [generate_statistics_id, hv]⟩

/-- Deserializing a serialized entity restores the five persisted fields and
keeps the carrier's identity fields. -/
theorem load_json_to_json (t s : Settings) :
    t.load_json s.to_json = Except.ok { t with
      thumbnails_enabled := s.thumbnails_enabled
      printer_model := s.printer_model
      corner_options := s.corner_options
      statistics_enabled := s.statistics_enabled
      use_current_model := s.use_current_model } := rfl

/-- A load on a fresh manager state whose store holds a serialized entity
reproduces that entity's five persisted fields. -/
theorem load_fresh_reads_blob (stw : Store) (s : Settings) (f p : String)
    (hb : stw.blob = some s.to_json) :
    ∃ st2 s2,
      SettingsManager.load { settings := none, store := stw } f p = Except.ok st2 ∧
      st2.settings = some s2 ∧
      s2.thumbnails_enabled = s.thumbnails_enabled ∧
      s2.printer_model = s.printer_model ∧
      s2.corner_options = s.corner_options ∧
      s2.statistics_enabled = s.statistics_enabled ∧
      s2.use_current_model = s.use_current_model := by
  obtain ⟨sid, hgen⟩ := generate_statistics_id_spec stw f
  refine ⟨{ settings := some { Settings.init sid p with
              thumbnails_enabled := s.thumbnails_enabled
              printer_model := s.printer_model
              corner_options := s.corner_options
              statistics_enabled := s.statistics_enabled
              use_current_model := s.use_current_model },
            store := { stw with statistics_id_pref := some sid } },
          { Settings.init sid p with
              thumbnails_enabled := s.thumbnails_enabled
              printer_model := s.printer_model
              corner_options := s.corner_options
              statistics_enabled := s.statistics_enabled
              use_current_model := s.use_current_model },
          ?_, rfl, rfl, rfl, rfl, rfl, rfl⟩
  simp only [SettingsManager.load, hgen, hb]
  rfl

/-- C5: for every entity state, `save()` followed by a fresh `load()` that
reads back the written blob yields field-for-field equality on all five
persisted fields. -/
theorem C5_save_load_round_trip (s : Settings) (st : ManagerState)
    (h : st.settings = some s) (f1 p1 f2 p2 : String) :
    ∃ st1 st2 s2,
      SettingsManager.save st f1 p1 = Except.ok st1 ∧
      SettingsManager.load { settings := none, store := st1.store } f2 p2 =
        Except.ok st2 ∧
      st2.settings = some s2 ∧
      s2.thumbnails_enabled = s.thumbnails_enabled ∧
      s2.printer_model = s.printer_model ∧
      s2.corner_options = s.corner_options ∧
      s2.statistics_enabled = s.statistics_enabled ∧
      s2.use_current_model = s.use_current_model := by
  have hsave : SettingsManager.save st f1 p1 =
      Except.ok { st with store := { st.store with blob := some s.to_json } } := by
    simp only [SettingsManager.save, h]
  obtain ⟨st2, s2, hload, hrest⟩ :=
    load_fresh_reads_blob { st.store with blob := some s.to_json } s f2 p2 rfl
  exact ⟨_, st2, s2, hsave, hload, hrest⟩

/-- C5 witness: the round trip at the constructor-default entity over a
concrete store. -/
theorem C5_witness :
    ∃ st1 st2 s2,
      SettingsManager.save
        { settings := some exampleSettings,
          store := { blob := none, statistics_id_pref := some "sid",
                     active_printer_id := "x" } } "f1" "p1" = Except.ok st1 ∧
      SettingsManager.load { settings := none, store := st1.store } "f2" "p2" =
        Except.ok st2 ∧
      st2.settings = some s2 ∧
      s2.thumbnails_enabled = exampleSettings.thumbnails_enabled ∧
      s2.printer_model = exampleSettings.printer_model ∧
      s2.corner_options = exampleSettings.corner_options ∧
      s2.statistics_enabled = exampleSettings.statistics_enabled ∧
      s2.use_current_model = exampleSettings.use_current_model :=
  C5_save_load_round_trip exampleSettings
    { settings := some exampleSettings,
      store := { blob := none, statistics_id_pref := some "sid",
                 active_printer_id := "x" } } rfl "f1" "p1" "f2" "p2"

/-- C7: after `save()` of a state `S`, arbitrary in-memory mutation of the
entity (any entity value `t`), then closing the popup without saving
(`visibility_changed(false)`, which reloads) restores all five persisted
fields of `S`. -/
theorem C7_discard_restores_saved_state (s t : Settings) (st : ManagerState)
    (h : st.settings = some s) (f1 p1 f2 p2 : String) :
    ∃ st1 st2 s2,
      SettingsManager.save st f1 p1 = Except.ok st1 ∧
      visibility_changed { settings := some t, store := st1.store } false f2 p2 =
        Except.ok st2 ∧
      st2.settings = some s2 ∧
      s2.thumbnails_enabled = s.thumbnails_enabled ∧
      s2.printer_model = s.printer_model ∧
      s2.corner_options = s.corner_options ∧
      s2.statistics_enabled = s.statistics_enabled ∧
      s2.use_current_model = s.use_current_model := by
  have hsave : SettingsManager.save st f1 p1 =
      Except.ok { st with store := { st.store with blob := some s.to_json } } := by
    simp only [SettingsManager.save, h]
  exact ⟨_, _, _, hsave, rfl, rfl, rfl, rfl, rfl, rfl, rfl⟩

/-- C7 witness: discard after save, with an intermediate entity whose fields
were all mutated. -/
theorem C7_witness :
    ∃ st1 st2 s2,
      SettingsManager.save
        { settings := some exampleSettings,
          store := { blob := none, statistics_id_pref := some "sid",
                     active_printer_id := "x" } } "f1" "p1" = Except.ok st1 ∧
      visibility_changed
        { settings := some { statistics_id := "sid2", plugin_json := "pj2",
                             thumbnails_enabled := false, printer_model := 4,
                             corner_options := [5, 5, 5, 5],
                             statistics_enabled := false, use_current_model := true },
          store := st1.store } false "f2" "p2" = Except.ok st2 ∧
      st2.settings = some s2 ∧
      s2.thumbnails_enabled = exampleSettings.thumbnails_enabled ∧
      s2.printer_model = exampleSettings.printer_model ∧
      s2.corner_options = exampleSettings.corner_options ∧
      s2.statistics_enabled = exampleSettings.statistics_enabled ∧
      s2.use_current_model = exampleSettings.use_current_model :=
  C7_discard_restores_saved_state exampleSettings
    { statistics_id := "sid2", plugin_json := "pj2", thumbnails_enabled := false,
      printer_model := 4, corner_options := [5, 5, 5, 5],
      statistics_enabled := false, use_current_model := true }
    { settings := some exampleSettings,
      store := { blob := none, statistics_id_pref := some "sid",
                 active_printer_id := "x" } } rfl "f1" "p1" "f2" "p2"

/-- A successful `load_json` never touches `statistics_id` (or the plugin
descriptor). -/
theorem load_json_ok_statistics_id (s : Settings) (d : SettingsJson) (s2 : Settings)
    (h : s.load_json d = Except.ok s2) :
    s2.statistics_id = s.statistics_id ∧ s2.plugin_json = s.plugin_json := by
  obtain ⟨a, b, c, e, g⟩ := d
  cases a <;> cases b <;> cases c <;> cases e <;> cases g <;>
    simp only [Settings.load_json] at h <;>
    first
      | (injection h with h2; subst h2; exact ⟨rfl, rfl⟩)
      | exact absurd h (by simp)

/-- Characterization of a successful `load()`: the resulting entity's
`statistics_id` is the pre-existing entity's id, or — on first construction —
the id returned (and persisted) by the one-shot generator; the store is
otherwise untouched. -/
theorem load_ok_spec (st : ManagerState) (f p : String) (st2 : ManagerState)
    (h : SettingsManager.load st f p = Except.ok st2) :
    ∃ s2, st2.settings = some s2 ∧
      ((∃ s, st.settings = some s ∧ s2.statistics_id = s.statistics_id ∧
         st2.store = st.store) ∨
       (st.settings = none ∧
         s2.statistics_id = (generate_statistics_id st.store f).1 ∧
         st2.store = (generate_statistics_id st.store f).2)) := by
  cases hset : st.settings with
  | some s =>
    cases hb : st.store.blob with
    | some d =>
      simp only [SettingsManager.load, hset, hb] at h
      cases hl : s.load_json d with
      | error e =>
        simp only [hl] at h
        exact absurd h (by simp)
      | ok s2 =>
        simp only [hl, Except.ok.injEq] at h
        subst h
        exact ⟨s2, rfl, Or.inl ⟨s, rfl, (load_json_ok_statistics_id s d s2 hl).1, rfl⟩⟩
    | none =>
      simp only [SettingsManager.load, hset, hb, Except.ok.injEq] at h
      subst h
      exact ⟨_, rfl, Or.inl ⟨s, rfl, rfl, rfl⟩⟩
  | none =>
    obtain ⟨sid, hgen⟩ := generate_statistics_id_spec st.store f
    cases hb : st.store.blob with
    | some d =>
      simp only [SettingsManager.load, hset, hgen, hb] at h
      cases hl : (Settings.init sid p).load_json d with
      | error e =>
        simp only [hl] at h
        exact absurd h (by simp)
      | ok s2 =>
        simp only [hl, Except.ok.injEq] at h
        subst h
        refine ⟨s2, rfl, Or.inr ⟨rfl, ?_, ?_⟩⟩
        · rw [hgen]
          exact (load_json_ok_statistics_id _ d s2 hl).1
        · simp [hgen, hb]
    | none =>
      simp only [SettingsManager.load, hset, hgen, hb, Except.ok.injEq] at h
      subst h
      exact ⟨_, rfl, Or.inr ⟨rfl, by simp [hgen, Settings.init], by simp [hgen, hb]⟩⟩

/-- C8: the installation id is stable — across two successive successful
`load()` calls the entity keeps the same `statistics_id` and the persisted
preference is untouched; on first construction over a store with no persisted
id the fresh id is used and persisted, and over a store with a (non-empty)
persisted id that id is reused. -/
theorem C8_statistics_id_stable
    (st st1 st2 : ManagerState) (s1 s2 : Settings) (f1 p1 f2 p2 : String)
    (h1 : SettingsManager.load st f1 p1 = Except.ok st1)
    (hs1 : st1.settings = some s1)
    (h2 : SettingsManager.load st1 f2 p2 = Except.ok st2)
    (hs2 : st2.settings = some s2) :
    s2.statistics_id = s1.statistics_id ∧
    st2.store = st1.store ∧
    (st.settings = none → st.store.statistics_id_pref = none →
      s1.statistics_id = f1 ∧ st1.store.statistics_id_pref = some f1) ∧
    (∀ v, st.settings = none → st.store.statistics_id_pref = some v → v ≠ "" →
      s1.statistics_id = v ∧ st1.store.statistics_id_pref = some v) := by
  obtain ⟨s2x, hs2x, hc2⟩ := load_ok_spec st1 f2 p2 st2 h2
  have hs2e : s2x = s2 := by rw [hs2x] at hs2; exact Option.some.inj hs2
  rw [hs2e] at hc2
  obtain ⟨s1x, hs1x, hc1⟩ := load_ok_spec st f1 p1 st1 h1
  have hs1e : s1x = s1 := by rw [hs1x] at hs1; exact Option.some.inj hs1
  rw [hs1e] at hc1
  refine ⟨?_, ?_, ?_, ?_⟩
  · rcases hc2 with ⟨s, hset, hid, _⟩ | ⟨hnone, _, _⟩
    · have hse : s = s1 := by rw [hset] at hs1; exact Option.some.inj hs1
      rw [hid, hse]
    · rw [hnone] at hs1; exact absurd hs1 (by simp)
  · rcases hc2 with ⟨_, _, _, hstore⟩ | ⟨hnone, _, _⟩
    · exact hstore
    · rw [hnone] at hs1; exact absurd hs1 (by simp)
  · intro hn hp
    rcases hc1 with ⟨s, hset, _, _⟩ | ⟨_, hid, hstore⟩
    · rw [hset] at hn; exact absurd hn (by simp)
    · have hg : generate_statistics_id st.store f1 =
          (f1, { st.store with statistics_id_pref := some f1 }) := by
        simp [generate_statistics_id, hp]
      exact ⟨by simp [hid, hg], by simp [hstore, hg]⟩
  · intro v hn hp hv
    rcases hc1 with ⟨s, hset, _, _⟩ | ⟨_, hid, hstore⟩
    · rw [hset] at hn; exact absurd hn (by simp)
    · have hg : generate_statistics_id st.store f1 = (v, st.store) := by
        simp [generate_statistics_id, hp, hv]
      exact ⟨by simp [hid, hg], by simp [hstore, hg, hp]⟩

/-- A first-run manager state over an empty store. -/
def c8Start : ManagerState :=
  { settings := none,
    store := { blob := none, statistics_id_pref := none, active_printer_id := "pid-x" } }

/-- The entity produced by the first load over `c8Start` with fresh id "u1". -/
def c8Settings : Settings :=
  { statistics_id := "u1", plugin_json := "pj1", thumbnails_enabled := true,
    printer_model := 2, corner_options := [0, 0, 3, 1], statistics_enabled := true,
    use_current_model := false }

/-- The manager state after that first load. -/
def c8Mid : ManagerState :=
  { settings := some c8Settings,
    store := { blob := none, statistics_id_pref := some "u1",
               active_printer_id := "pid-x" } }

/-- C8 witness: two concrete successive loads over an initially empty store. -/
theorem C8_witness :
    c8Settings.statistics_id = c8Settings.statistics_id ∧
    c8Mid.store = c8Mid.store ∧
    (c8Start.settings = none → c8Start.store.statistics_id_pref = none →
      c8Settings.statistics_id = "u1" ∧ c8Mid.store.statistics_id_pref = some "u1") ∧
    (∀ v, c8Start.settings = none → c8Start.store.statistics_id_pref = some v →
      v ≠ "" → c8Settings.statistics_id = v ∧ c8Mid.store.statistics_id_pref = some v) :=
  C8_statistics_id_stable c8Start c8Mid c8Mid c8Settings c8Settings "u1" "pj1" "u2" "pj2"
    (by rfl) rfl (by rfl) rfl

/-- Modelled from the spec's words (section 4.2 / 9): the fixed lookup table
from known device identifiers to catalog indices, one entry per accepted
identifier spelling in `SettingsManager.load`. -/
def PRINTER_ID_TABLE : List (String × Int) :=
  [("elegoo_neptune_2", 0),
   ("elegoo_neptune_2s", 1), ("elegoo_neptune_2_s", 1),
   ("elegoo_neptune_3pro", 2), ("elegoo_neptune_3_pro", 2),
   ("elegoo_neptune_3plus", 3), ("elegoo_neptune_3_plus", 3),
   ("elegoo_neptune_3max", 4), ("elegoo_neptune_3_max", 4)]

/-- Table lookup of a detected device identifier. -/
def printerLookup (pid : String) : Option Int :=
  (PRINTER_ID_TABLE.find? (fun e => pid == e.1)).map Prod.snd

/-- The sequential if-chain of the source equals a single table lookup
defaulting to catalog index 2. -/
theorem detect_eq_lookup (pid : String) :
    detectPrinterModel pid 2 = (printerLookup pid).getD 2 := by
  by_cases h1 : pid = "elegoo_neptune_2"
  · subst h1; rfl
  by_cases h2 : pid = "elegoo_neptune_2s"
  · subst h2; rfl
  by_cases h3 : pid = "elegoo_neptune_2_s"
  · subst h3; rfl
  by_cases h4 : pid = "elegoo_neptune_3pro"
  · subst h4; rfl
  by_cases h5 : pid = "elegoo_neptune_3_pro"
  · subst h5; rfl
  by_cases h6 : pid = "elegoo_neptune_3plus"
  · subst h6; rfl
  by_cases h7 : pid = "elegoo_neptune_3_plus"
  · subst h7; rfl
  by_cases h8 : pid = "elegoo_neptune_3max"
  · subst h8; rfl
  by_cases h9 : pid = "elegoo_neptune_3_max"
  · subst h9; rfl
  have b1 : (pid == "elegoo_neptune_2") = false := by simp [h1]
  have b2 : (pid == "elegoo_neptune_2s") = false := by simp [h2]
  have b3 : (pid == "elegoo_neptune_2_s") = false := by simp [h3]
  have b4 : (pid == "elegoo_neptune_3pro") = false := by simp [h4]
  have b5 : (pid == "elegoo_neptune_3_pro") = false := by simp [h5]
  have b6 : (pid == "elegoo_neptune_3plus") = false := by simp [h6]
  have b7 : (pid == "elegoo_neptune_3_plus") = false := by simp [h7]
  have b8 : (pid == "elegoo_neptune_3max") = false := by simp [h8]
  have b9 : (pid == "elegoo_neptune_3_max") = false := by simp [h9]
  simp [detectPrinterModel, printerLookup, PRINTER_ID_TABLE, List.find?,
    h1, h2, h3, h4, h5, h6, h7, h8, h9, b1, b2, b3, b4, b5, b6, b7, b8, b9]

/-- Every table entry names one of the 5 device catalog indices. -/
theorem printerLookup_range (pid : String) (j : Int)
    (hj : printerLookup pid = some j) : 0 ≤ j ∧ j < 5 := by
  cases hfind : PRINTER_ID_TABLE.find? (fun e => pid == e.1) with
  | none => rw [printerLookup, hfind] at hj; exact absurd hj (by simp)
  | some e =>
    have hje : e.2 = j := by
      rw [printerLookup, hfind] at hj
      exact Option.some.inj hj
    have he : e ∈ PRINTER_ID_TABLE := List.mem_of_find?_eq_some hfind
    rw [← hje]
    fin_cases he <;> exact ⟨by decide, by decide⟩

/-- C9: when no blob is stored, `load()` applies the defaults
(`overlay_enabled=true`, `corner_options=[0,0,3,1]`, `statistics_enabled=true`,
`use_current_model=false`, `device_model_index=2`) and then overrides the
device model index with the fixed lookup table's entry for the detected
device identifier; an unrecognized identifier leaves index 2; every table hit
is one of the 5 catalog indices. -/
theorem C9_defaults_and_detection (st : ManagerState) (f p : String)
    (hb : st.store.blob = none) :
    ∃ st1 s1,
      SettingsManager.load st f p = Except.ok st1 ∧
      st1.settings = some s1 ∧
      s1.thumbnails_enabled = true ∧
      s1.corner_options = [0, 0, 3, 1] ∧
      s1.statistics_enabled = true ∧
      s1.use_current_model = false ∧
      s1.printer_model = (printerLookup st.store.active_printer_id).getD 2 ∧
      (∀ j, printerLookup st.store.active_printer_id = some j → 0 ≤ j ∧ j < 5) := by
  cases hset : st.settings with
  | some s =>
    refine ⟨{ st with settings := some { s with
        thumbnails_enabled := true
        printer_model := detectPrinterModel st.store.active_printer_id 2
        corner_options := [0, 0, 3, 1]
        statistics_enabled := true
        use_current_model := false } },
      { s with
        thumbnails_enabled := true
        printer_model := detectPrinterModel st.store.active_printer_id 2
        corner_options := [0, 0, 3, 1]
        statistics_enabled := true
        use_current_model := false },
      ?_, rfl, rfl, rfl, rfl, rfl,
      detect_eq_lookup st.store.active_printer_id,
      fun j => printerLookup_range st.store.active_printer_id j⟩
    simp only [SettingsManager.load, hset, hb]
  | none =>
    obtain ⟨sid, hgen⟩ := generate_statistics_id_spec st.store f
    refine ⟨{ settings := some { Settings.init sid p with
                  thumbnails_enabled := true
                  printer_model := detectPrinterModel st.store.active_printer_id 2
                  corner_options := [0, 0, 3, 1]
                  statistics_enabled := true
                  use_current_model := false },
              store := { st.store with statistics_id_pref := some sid } },
      { Settings.init sid p with
        thumbnails_enabled := true
        printer_model := detectPrinterModel st.store.active_printer_id 2
        corner_options := [0, 0, 3, 1]
        statistics_enabled := true
        use_current_model := false },
      ?_, rfl, rfl, rfl, rfl, rfl,
      detect_eq_lookup st.store.active_printer_id,
      fun j => printerLookup_range st.store.active_printer_id j⟩
    simp only [SettingsManager.load, hset, hgen, hb]

/-- C9 witness: a first run over an empty store with the detected device
"elegoo_neptune_3_max" (catalog index 4). -/
theorem C9_witness :
    ∃ st1 s1,
      SettingsManager.load
        { settings := none,
          store := { blob := none, statistics_id_pref := none,
                     active_printer_id := "elegoo_neptune_3_max" } } "u9" "pj9" =
        Except.ok st1 ∧
      st1.settings = some s1 ∧
      s1.thumbnails_enabled = true ∧
      s1.corner_options = [0, 0, 3, 1] ∧
      s1.statistics_enabled = true ∧
      s1.use_current_model = false ∧
      s1.printer_model = (printerLookup "elegoo_neptune_3_max").getD 2 ∧
      (∀ j, printerLookup "elegoo_neptune_3_max" = some j → 0 ≤ j ∧ j < 5) :=
  C9_defaults_and_detection
    { settings := none,
      store := { blob := none, statistics_id_pref := none,
                 active_printer_id := "elegoo_neptune_3_max" } } "u9" "pj9" rfl
